import Mathlib

/-!
Verification of the agent messaging and orchestration layer of the
Agentic-AI-PES project (message bus, agent lifecycle, registry, and the
plan-execution engine of the orchestrator), via a shallow embedding of the
relevant Python code into Lean.

Python dictionaries are modelled as insertion-ordered association lists
with unique keys (`dictGet`, `dictInsert`, `dictErase` mirror `d[k]`,
`d[k] = v` and `d.pop(k)`), and Python values by the inductive type
`PValue`.  A Python expression that can raise is modelled with the
`PyResult` type; in particular constructing a set literal whose element
is unhashable (a dict or a list) raises `TypeError`, which is what the
double-brace literals of the source `{{...}}` do at runtime.
-/

/-- Model of a Python runtime value as it appears in message payloads:
strings, integers, booleans, lists, string-keyed dicts, sets and None. -/
inductive PValue where
  | str : String → PValue
  | int : Int → PValue
  | bool : Bool → PValue
  | list : List PValue → PValue
  | dict : List (String × PValue) → PValue
  | pyset : List PValue → PValue
  | pynone : PValue

/-- Python `d.get(k)` / `k in d` lookup on an insertion-ordered dict. -/
def dictGet {β : Type} (k : String) : List (String × β) → Option β
  | [] => Option.none
  | p :: rest => if p.1 = k then Option.some p.2 else dictGet k rest

/-- Python `d[k] = v`: overwrite in place if the key exists, else append
(preserving insertion order). -/
def dictInsert {β : Type} (d : List (String × β)) (k : String) (v : β) :
    List (String × β) :=
  match d with
  | [] => [(k, v)]
  | p :: rest => if p.1 = k then (k, v) :: rest else p :: dictInsert rest k v

/-- Python `d.pop(k)` / `del d[k]`: remove the entry for `k`. -/
def dictErase {β : Type} (d : List (String × β)) (k : String) :
    List (String × β) :=
  match d with
  | [] => []
  | p :: rest => if p.1 = k then dictErase rest k else p :: dictErase rest k

theorem dictGet_insert_self {β : Type} (d : List (String × β)) (k : String) (v : β) :
    dictGet k (dictInsert d k v) = Option.some v := by
  induction d with
  | nil => simp [dictInsert, dictGet]
  | cons p rest ih =>
    by_cases h : p.1 = k
    · simp [dictInsert, dictGet, h]
    · simp [dictInsert, dictGet, h, ih]

theorem dictGet_insert_ne {β : Type} (d : List (String × β)) (k k' : String) (v : β)
    (h : k' ≠ k) : dictGet k' (dictInsert d k v) = dictGet k' d := by
  induction d with
  | nil => simp [dictInsert, dictGet, Ne.symm h]
  | cons p rest ih =>
    by_cases hp : p.1 = k
    · subst hp
      simp [dictInsert, dictGet, Ne.symm h]
    · simp [dictInsert, dictGet, hp, ih]

theorem dictGet_erase_self {β : Type} (d : List (String × β)) (k : String) :
    dictGet k (dictErase d k) = Option.none := by
  induction d with
  | nil => simp [dictErase, dictGet]
  | cons p rest ih =>
    by_cases h : p.1 = k
    · simp [dictErase, dictGet, h, ih]
    · simp [dictErase, dictGet, h, ih]

theorem dictGet_erase_ne {β : Type} (d : List (String × β)) (k k' : String)
    (h : k' ≠ k) : dictGet k' (dictErase d k) = dictGet k' d := by
  induction d with
  | nil => simp [dictErase, dictGet]
  | cons p rest ih =>
    by_cases hp : p.1 = k
    · subst hp
      simp [dictErase, dictGet, Ne.symm h, ih]
    · simp [dictErase, dictGet, hp, ih]

/-- Result of evaluating a Python expression that may raise. -/
inductive PyResult (α : Type) where
  | ok : α → PyResult α
  | exn : String → PyResult α

/-- Python unhashability: dicts, lists and sets are unhashable. -/
def isUnhashable : PValue → Bool
  | .dict _ => true
  | .list _ => true
  | .pyset _ => true
  | _ => false

/-- Evaluation of a Python set literal: inserting an unhashable element
raises `TypeError`. -/
def pySetLiteral (elems : List PValue) : PyResult PValue :=
  if elems.any isUnhashable then .exn "TypeError: unhashable type"
  else .ok (.pyset elems)

namespace GeminiCore

/-- Embedding of `GeminiCore._extract_result_key` (gemini_core.py,
lines 418-426): scan the fixed priority list and return the first key
present in `data`, else the first key of `data`, else `None`. -/
def extract_result_key (data : List (String × PValue)) : Option String :=
  let priority_keys : List String := ["email", "event_id", "contact", "meeting_id"]
  match priority_keys.find? (fun k => (dictGet k data).isSome) with
  | Option.some k => Option.some k
  | Option.none => data.head?.map Prod.fst

/-- The result-key priority order exactly as the specification words it:
prefer `email`, then `event_id`, then `contact`, then `meeting_id`, else
the first available key, and no key for an empty map. -/
def extract_result_key_spec (data : List (String × PValue)) : Option String :=
  if (dictGet "email" data).isSome then Option.some "email"
  else if (dictGet "event_id" data).isSome then Option.some "event_id"
  else if (dictGet "contact" data).isSome then Option.some "contact"
  else if (dictGet "meeting_id" data).isSome then Option.some "meeting_id"
  else match data with
       | [] => Option.none
       | p :: _ => Option.some p.1

end GeminiCore

/-- C6: for every response payload data map, `_extract_result_key` returns
`email` if present, otherwise `event_id`, otherwise `contact`, otherwise
`meeting_id`, otherwise the first available key of the map, and no key for
an empty map. -/
theorem extract_result_key_priority_order (data : List (String × PValue)) :
    GeminiCore.extract_result_key data = GeminiCore.extract_result_key_spec data := by
  unfold GeminiCore.extract_result_key GeminiCore.extract_result_key_spec
  by_cases h1 : (dictGet "email" data).isSome
  · simp [List.find?, h1]
  · by_cases h2 : (dictGet "event_id" data).isSome
    · simp [List.find?, h1, h2]
    · by_cases h3 : (dictGet "contact" data).isSome
      · simp [List.find?, h1, h2, h3]
      · by_cases h4 : (dictGet "meeting_id" data).isSome
        · simp [List.find?, h1, h2, h3, h4]
        · cases data with
          | nil => simp [List.find?, h1, h2, h3, h4]
          | cons p rest => simp [List.find?, h1, h2, h3, h4]

/-- Python `s.startswith("$")`, computed on the character list of `s`. -/
def startsWithDollar (s : String) : Bool :=
  match s.data with
  | [] => false
  | c :: _ => c = '$'

/-- Python slice `s[1:]`, computed on the character list of `s`. -/
def dropFirstChar (s : String) : String := String.mk (s.data.drop 1)

namespace GeminiCore

/-- Embedding of the list-element branch of `GeminiCore._resolve_parameters`
(gemini_core.py line 413): a string item starting with `$` is looked up in
the context under its text without the `$`, falling back to the literal
item; any other item is kept as is. -/
def resolve_list_item (context : List (String × PValue)) (item : PValue) : PValue :=
  match item with
  | .str s =>
      if startsWithDollar s then (dictGet (dropFirstChar s) context).getD (.str s)
      else .str s
  | v => v

/-- Embedding of `GeminiCore._resolve_parameters` (gemini_core.py,
lines 403-416): a top-level string value starting with `$` is replaced by
the context entry for its text without the `$` (defaulting to the literal
value), a list value has each of its elements resolved the same way, and
every other value is kept unchanged. -/
def resolve_parameters (parameters context : List (String × PValue)) :
    List (String × PValue) :=
  parameters.map (fun p =>
    match p.2 with
    | .str s =>
        if startsWithDollar s then (p.1, (dictGet (dropFirstChar s) context).getD (.str s))
        else (p.1, .str s)
    | .list xs => (p.1, .list (xs.map (resolve_list_item context)))
    | v => (p.1, v))

end GeminiCore

/-- C7: resolving parameters against a context with no entry for a
referenced key leaves a `$`-prefixed placeholder literally unchanged, both
as a top-level value and as a list element, and never drops a parameter
(the key sequence of the map is preserved); resolution is a total function
and cannot raise. -/
theorem resolve_parameters_unset_placeholder
    (parameters context : List (String × PValue)) (s : String)
    (hd : startsWithDollar s = true)
    (hn : dictGet (dropFirstChar s) context = Option.none) :
    ((GeminiCore.resolve_parameters parameters context).map Prod.fst
        = parameters.map Prod.fst)
    ∧ (∀ k : String, (k, PValue.str s) ∈ parameters →
        (k, PValue.str s) ∈ GeminiCore.resolve_parameters parameters context)
    ∧ GeminiCore.resolve_list_item context (PValue.str s) = PValue.str s := by
  refine ⟨?_, ?_, ?_⟩
  · induction parameters with
    | nil => rfl
    | cons p rest ih =>
      rcases p with ⟨k, v⟩
      cases v <;>
        simp_all [GeminiCore.resolve_parameters, apply_ite (f := Prod.fst)]
  · intro k hk
    induction hk with
    | head rest => simp [GeminiCore.resolve_parameters, hd, hn]
    | tail b _ ih => exact List.mem_cons_of_mem _ ih
  · simp [GeminiCore.resolve_list_item, hd, hn]

/-- Witness for C7: a concrete parameter map holding the placeholder
`$missing` resolved against an empty context keeps the literal text. -/
theorem resolve_parameters_unset_placeholder_witness :
    ("recipients", PValue.str "$missing") ∈
      GeminiCore.resolve_parameters [("recipients", PValue.str "$missing")] [] :=
  (resolve_parameters_unset_placeholder [("recipients", PValue.str "$missing")] []
      "$missing" (by decide) (by rfl)).2.1 "recipients" (by simp)

/-- Embedding of the `AgentMessage` dataclass (base_agent.py lines 19-27). -/
structure AgentMessage where
  sender : String
  recipient : String
  message_type : String
  data : List (String × PValue)
  correlation_id : String
  timestamp : Nat

namespace GeminiCore

/-- Embedding of `GeminiCore.handle_message` (gemini_core.py lines 428-441)
acting on the `active_tasks` pending-response table: a `task_response`
message stores its payload under its correlation id and returns no reply;
any other message type leaves the table unchanged and returns an error
reply. -/
def handle_message (active_tasks : List (String × List (String × PValue)))
    (message : AgentMessage) :
    List (String × List (String × PValue)) × Option (List (String × PValue)) :=
  if message.message_type = "task_response" then
    (dictInsert active_tasks message.correlation_id message.data, Option.none)
  else
    (active_tasks,
     Option.some [("status", PValue.str "error"),
                  ("message", PValue.str "Unhandled message type")])

/-- Embedding of one poll of `GeminiCore._wait_for_response` (gemini_core.py
lines 332-342): when `active_tasks` holds an entry for the correlation id,
pop it and return it; otherwise leave the table unchanged and keep waiting
(modelled as returning `none`). -/
def wait_for_response_poll (active_tasks : List (String × List (String × PValue)))
    (correlation_id : String) :
    Option (List (String × PValue)) × List (String × List (String × PValue)) :=
  match dictGet correlation_id active_tasks with
  | Option.some response => (Option.some response, dictErase active_tasks correlation_id)
  | Option.none => (Option.none, active_tasks)

end GeminiCore

/-- C8: a `task_response` is stored in the pending-response table under its
own correlation id, leaving entries for every other id untouched, and the
waiter for that id consumes exactly that entry: it receives the stored
payload, the entry is removed, and entries for every other id are left
unchanged — so a waiter is resolved only by the response carrying its own
correlation id. -/
theorem correlation_id_isolation
    (active_tasks : List (String × List (String × PValue)))
    (message : AgentMessage) (c' : String)
    (htype : message.message_type = "task_response")
    (hne : c' ≠ message.correlation_id) :
    dictGet message.correlation_id (GeminiCore.handle_message active_tasks message).1
        = Option.some message.data
    ∧ dictGet c' (GeminiCore.handle_message active_tasks message).1
        = dictGet c' active_tasks
    ∧ (GeminiCore.wait_for_response_poll
        (GeminiCore.handle_message active_tasks message).1 message.correlation_id).1
        = Option.some message.data
    ∧ dictGet message.correlation_id
        (GeminiCore.wait_for_response_poll
          (GeminiCore.handle_message active_tasks message).1 message.correlation_id).2
        = Option.none
    ∧ dictGet c'
        (GeminiCore.wait_for_response_poll
          (GeminiCore.handle_message active_tasks message).1 message.correlation_id).2
        = dictGet c' active_tasks := by
  have hstore : (GeminiCore.handle_message active_tasks message).1
      = dictInsert active_tasks message.correlation_id message.data := by
    simp [GeminiCore.handle_message, htype]
  have h1 : dictGet message.correlation_id (GeminiCore.handle_message active_tasks message).1
      = Option.some message.data := by
    rw [hstore]; exact dictGet_insert_self _ _ _
  refine ⟨h1, ?_, ?_, ?_, ?_⟩
  · rw [hstore]; exact dictGet_insert_ne _ _ _ _ hne
  · simp [GeminiCore.wait_for_response_poll, h1]
  · simp [GeminiCore.wait_for_response_poll, h1, dictGet_erase_self]
  · simp only [GeminiCore.wait_for_response_poll, h1]
    rw [dictGet_erase_ne _ _ _ hne, hstore, dictGet_insert_ne _ _ _ _ hne]

/-- Witness for C8: storing a concrete `task_response` under id `c1` and
polling for `c1` removes exactly that entry and leaves the rest of the
(empty) table unchanged. -/
theorem correlation_id_isolation_witness :
    dictGet "c2"
        (GeminiCore.wait_for_response_poll
          (GeminiCore.handle_message
            [] ⟨"contact_agent", "gemini_core", "task_response",
                [("status", PValue.str "success")], "c1", 0⟩).1 "c1").2
      = dictGet "c2" ([] : List (String × List (String × PValue))) :=
  (correlation_id_isolation []
    ⟨"contact_agent", "gemini_core", "task_response",
      [("status", PValue.str "success")], "c1", 0⟩ "c2" rfl (by decide)).2.2.2.2

/-- Embedding of the `AgentStatus` enumeration (base_agent.py lines 12-17). -/
inductive AgentStatus where
  | INITIALIZING : AgentStatus
  | IDLE : AgentStatus
  | BUSY : AgentStatus
  | ERROR : AgentStatus
deriving DecidableEq

/-- Outcome of invoking the dispatched handler inside
`BaseAgent._handle_message`: either a returned value (`None` or a dict) or
a raised exception with its description. -/
inductive HandlerOutcome where
  | returns : Option (List (String × PValue)) → HandlerOutcome
  | raises : String → HandlerOutcome

/-- A message handed to `BaseAgent.send_message`: recipient, payload and
correlation id. -/
structure SentMessage where
  recipient : String
  data : List (String × PValue)
  correlation_id : String

namespace BaseAgent

/-- Embedding of the response normalization in `BaseAgent._handle_message`
(base_agent.py lines 127-131): tag the response as a `task_response` unless
the handler already set a `type` entry. -/
def normalize_response (r : List (String × PValue)) : List (String × PValue) :=
  if (dictGet "type" r).isSome then r
  else dictInsert r "type" (PValue.str "task_response")

/-- Embedding of `BaseAgent._handle_message` (base_agent.py lines 112-155)
as a function of the agent name, the status before dispatch, the incoming
message and the handler outcome.  It returns the status of the agent after the
`finally` clause together with the list of messages sent back.  The status
is set to BUSY before dispatch; afterwards the `finally` clause resets any
non-ERROR status to IDLE.  On a returned response, the reply is sent only
when the response is truthy (in Python `None` and the empty dict are both
falsy) and the sender is not `system`; on a raised exception the error
envelope is sent unconditionally and the status is left at ERROR. -/
def handle_message_step (name : String) (status : AgentStatus)
    (message : AgentMessage) (outcome : HandlerOutcome) :
    AgentStatus × List SentMessage :=
  match outcome with
  | .returns response =>
      let sent :=
        match response with
        | Option.some r =>
            if r.isEmpty = false ∧ message.sender ≠ "system" then
              [⟨message.sender, normalize_response r, message.correlation_id⟩]
            else []
        | Option.none => []
      (AgentStatus.IDLE, sent)
  | .raises e =>
      let error_response : List (String × PValue) :=
        [("status", PValue.str "error"),
         ("message", PValue.str ("Error in " ++ name ++ ": " ++ e)),
         ("correlation_id", PValue.str message.correlation_id),
         ("type", PValue.str "task_response")]
      (AgentStatus.ERROR, [⟨message.sender, error_response, message.correlation_id⟩])

/-- Embedding of `BaseAgent.stop` (base_agent.py lines 68-87) restricted to
its effect on the `_running` flag and the status: a no-op when not running,
otherwise cancel the loop, run the teardown hook, and set the status to
IDLE. -/
def stop (running : Bool) (status : AgentStatus) : Bool × AgentStatus :=
  if running then (false, AgentStatus.IDLE) else (running, status)

end BaseAgent

/-- C10: on a handler exception the error-status envelope, carrying the
original correlation id, is sent back to the sender unconditionally —
including when the sender is the synthetic `system` sender — whereas a
successful handler response to a `system`-sent message is suppressed. -/
theorem error_response_sent_even_to_system_sender
    (name : String) (status : AgentStatus) (message : AgentMessage) (e : String)
    (r : List (String × PValue))
    (hsys : message.sender = "system") :
    ((BaseAgent.handle_message_step name status message (.raises e)).2 =
      [⟨"system",
        [("status", PValue.str "error"),
         ("message", PValue.str ("Error in " ++ name ++ ": " ++ e)),
         ("correlation_id", PValue.str message.correlation_id),
         ("type", PValue.str "task_response")],
        message.correlation_id⟩])
    ∧ (BaseAgent.handle_message_step name status message
        (.returns (Option.some r))).2 = [] := by
  constructor
  · simp [BaseAgent.handle_message_step, hsys]
  · simp [BaseAgent.handle_message_step, hsys]

/-- Witness for C10 at a concrete `system`-sent message: the exception
branch replies to `system`, the success branch stays silent. -/
theorem error_response_sent_even_to_system_sender_witness :
    (BaseAgent.handle_message_step "email_agent" AgentStatus.IDLE
        ⟨"system", "email_agent", "task", [], "c9", 0⟩
        (.returns (Option.some [("status", PValue.str "success")]))).2 = [] :=
  (error_response_sent_even_to_system_sender "email_agent" AgentStatus.IDLE
    ⟨"system", "email_agent", "task", [], "c9", 0⟩ "boom"
    [("status", PValue.str "success")] rfl).2

/-- Counterexample to C3: an agent whose status is ERROR does not keep it —
dispatching a later message whose handler succeeds ends with status IDLE,
and `stop()` on a running agent resets the status to IDLE. -/
theorem error_status_not_sticky_counterexample :
    ((BaseAgent.handle_message_step "contact_agent" AgentStatus.ERROR
        ⟨"gemini_core", "contact_agent", "task", [], "c1", 0⟩
        (.returns Option.none)).1 = AgentStatus.IDLE)
    ∧ (BaseAgent.stop true AgentStatus.ERROR).2 = AgentStatus.IDLE :=
  ⟨rfl, rfl⟩

/-- C3 amended: a handler exception leaves the status at ERROR when that
dispatch finishes (the `finally` clause does not reset it), but ERROR is
not sticky: dispatching any later message moves the status away from ERROR
(ending at IDLE when the handler does not raise), and `stop()` on a running
agent resets the status to IDLE; only `stop()` on a non-running agent
leaves ERROR in place. -/
theorem error_status_until_next_dispatch_or_stop
    (name : String) (message : AgentMessage) (e : String)
    (response : Option (List (String × PValue))) :
    ((BaseAgent.handle_message_step name AgentStatus.ERROR message
        (.raises e)).1 = AgentStatus.ERROR)
    ∧ ((BaseAgent.handle_message_step name AgentStatus.ERROR message
        (.returns response)).1 = AgentStatus.IDLE)
    ∧ (BaseAgent.stop true AgentStatus.ERROR).2 = AgentStatus.IDLE
    ∧ (BaseAgent.stop false AgentStatus.ERROR).2 = AgentStatus.ERROR := by
  refine ⟨rfl, ?_, rfl, rfl⟩
  cases response <;> rfl

/-- State of the singleton `MessageBus` (message_bus.py lines 27-34): one
FIFO queue per registered agent name, plus per-topic subscriber lists. -/
structure BusState where
  message_queues : List (String × List AgentMessage)
  subscribers : List (String × List String)

namespace MessageBus

/-- Embedding of `MessageBus.register_agent` (message_bus.py lines 36-46):
create a mailbox for the name unless one already exists. -/
def register_agent (bus : BusState) (agent_name : String) : BusState :=
  if (dictGet agent_name bus.message_queues).isSome then bus
  else { bus with message_queues := dictInsert bus.message_queues agent_name [] }

/-- Embedding of `MessageBus.unregister_agent` (message_bus.py lines 48-58):
delete the mailbox if present; topic subscriptions are left untouched. -/
def unregister_agent (bus : BusState) (agent_name : String) : BusState :=
  if (dictGet agent_name bus.message_queues).isSome then
    { bus with message_queues := dictErase bus.message_queues agent_name }
  else bus

/-- Embedding of `MessageBus.subscribe_to_topic` (message_bus.py,
lines 104-118): ensure the topic has a subscriber list, then append the
agent name if it is not already subscribed. -/
def subscribe_to_topic (bus : BusState) (agent_name topic : String) : BusState :=
  let subs :=
    match dictGet topic bus.subscribers with
    | Option.some l => l
    | Option.none => []
  let subs' := if agent_name ∈ subs then subs else subs ++ [agent_name]
  { bus with subscribers := dictInsert bus.subscribers topic subs' }

/-- Delivery loop of `MessageBus.publish_to_topic` (message_bus.py,
lines 146-157): enqueue a per-subscriber copy of the message onto
`self.message_queues[agent_name]` — an unguarded dict lookup, so a
subscriber without a mailbox raises `KeyError`. -/
def deliver_to_subscribers (queues : List (String × List AgentMessage))
    (subs : List String) (message : AgentMessage) :
    PyResult (List (String × List AgentMessage)) :=
  match subs with
  | [] => .ok queues
  | a :: rest =>
      match dictGet a queues with
      | Option.some q =>
          deliver_to_subscribers
            (dictInsert queues a (q ++ [{ message with recipient := a }])) rest message
      | Option.none => .exn "KeyError"

/-- Embedding of `MessageBus.publish_to_topic` (message_bus.py,
lines 133-159): a topic with no subscriber list is a logged no-op;
otherwise each subscriber gets a copy of the message. -/
def publish_to_topic (bus : BusState) (topic : String) (message : AgentMessage) :
    PyResult BusState :=
  match dictGet topic bus.subscribers with
  | Option.none => .ok bus
  | Option.some subs =>
      match deliver_to_subscribers bus.message_queues subs message with
      | .ok queues => .ok { bus with message_queues := queues }
      | .exn e => .exn e

end MessageBus

theorem deliver_to_subscribers_missing_queue
    (subs : List String) (message : AgentMessage) (a : String) :
    ∀ queues : List (String × List AgentMessage), a ∈ subs →
      dictGet a queues = Option.none →
      MessageBus.deliver_to_subscribers queues subs message = .exn "KeyError" := by
  induction subs with
  | nil => intro queues ha _; cases ha
  | cons b rest ih =>
    intro queues ha hq
    cases ha with
    | head => simp [MessageBus.deliver_to_subscribers, hq]
    | tail _ hmem =>
      cases hb : dictGet b queues with
      | none => simp [MessageBus.deliver_to_subscribers, hb]
      | some q =>
        have hab : a ≠ b := by
          intro hcontra
          rw [hcontra, hb] at hq
          cases hq
        simp only [MessageBus.deliver_to_subscribers, hb]
        exact ih _ hmem (by rw [dictGet_insert_ne _ _ _ _ hab]; exact hq)

/-- C9: publishing to a topic is not total over reachable bus states —
after an agent registers, subscribes to a topic and is then unregistered
(removing its mailbox but leaving the subscription in place), publishing to
that topic performs the unguarded mailbox lookup for the stale subscriber
and raises `KeyError` instead of completing or logging a no-op. -/
theorem publish_to_topic_stale_subscriber_keyerror
    (bus : BusState) (agent_name topic : String) (message : AgentMessage) :
    MessageBus.publish_to_topic
      (MessageBus.unregister_agent
        (MessageBus.subscribe_to_topic
          (MessageBus.register_agent bus agent_name) agent_name topic)
        agent_name)
      topic message = .exn "KeyError" := by
  set bus1 := MessageBus.register_agent bus agent_name with hbus1
  set bus2 := MessageBus.subscribe_to_topic bus1 agent_name topic with hbus2
  set bus3 := MessageBus.unregister_agent bus2 agent_name with hbus3
  have hreg : (dictGet agent_name bus1.message_queues).isSome := by
    rw [hbus1]
    unfold MessageBus.register_agent
    by_cases h : (dictGet agent_name bus.message_queues).isSome
    · simp [h]
    · simp [h, dictGet_insert_self]
  have hq2 : bus2.message_queues = bus1.message_queues := by
    rw [hbus2]; rfl
  have hsubs2 : ∃ subs, dictGet topic bus2.subscribers = Option.some subs
      ∧ agent_name ∈ subs := by
    rw [hbus2]
    unfold MessageBus.subscribe_to_topic
    cases hs : dictGet topic bus1.subscribers with
    | none =>
        refine ⟨[agent_name], ?_, by simp⟩
        simp [hs, dictGet_insert_self]
    | some l =>
        by_cases hmem : agent_name ∈ l
        · exact ⟨l, by simp [hs, hmem, dictGet_insert_self], hmem⟩
        · exact ⟨l ++ [agent_name], by simp [hs, hmem, dictGet_insert_self], by simp⟩
  have hq3 : dictGet agent_name bus3.message_queues = Option.none := by
    rw [hbus3]
    unfold MessageBus.unregister_agent
    rw [hq2]
    simp [hreg, dictGet_erase_self]
  have hsubs3 : bus3.subscribers = bus2.subscribers := by
    rw [hbus3]
    unfold MessageBus.unregister_agent
    rw [hq2]
    simp [hreg]
  obtain ⟨subs, hsome, hmem⟩ := hsubs2
  simp only [MessageBus.publish_to_topic, hsubs3, hsome,
    deliver_to_subscribers_missing_queue subs message agent_name
      bus3.message_queues hmem hq3]

namespace AgentRegistry

/-- Embedding of `AgentRegistry.start_all_agents` (agent_registry.py,
lines 120-126) acting on a snapshot of the registered names, with each
start attempt of each agent summarized by `outcome`.  Neither the loop nor
`start_agent` (lines 84-100) has any exception handling, so the loop
records the attempted names in order and ends at the first raised
exception, which propagates to the caller. -/
def start_all_agents (snapshot : List String) (outcome : String → PyResult Unit) :
    List String × Option String :=
  match snapshot with
  | [] => ([], Option.none)
  | n :: rest =>
      match outcome n with
      | .ok _ =>
          let r := start_all_agents rest outcome
          (n :: r.1, r.2)
      | .exn e => ([n], Option.some e)

/-- Start outcomes in which the start hook of the orchestrator raises — as
`GeminiCore.on_start` (gemini_core.py lines 31-44) does when the model
fails to initialize — while every other agent starts fine. -/
def gemini_start_failure : String → PyResult Unit :=
  fun n => if n = "gemini_core" then .exn "Failed to initialize Gemini model"
           else .ok ()

end AgentRegistry

/-- Counterexample to C4: with a snapshot `[gemini_core, calendar_agent]`
where starting `gemini_core` raises, the loop ends with only `gemini_core`
attempted — `calendar_agent` is skipped and the exception propagates,
contradicting the claim that the remaining agents are still attempted. -/
theorem start_all_agents_skips_rest_counterexample :
    (AgentRegistry.start_all_agents ["gemini_core", "calendar_agent"]
        AgentRegistry.gemini_start_failure).1 = ["gemini_core"]
    ∧ (AgentRegistry.start_all_agents ["gemini_core", "calendar_agent"]
        AgentRegistry.gemini_start_failure).2
      = Option.some "Failed to initialize Gemini model" :=
  ⟨rfl, rfl⟩

/-- C4 amended: `start_all_agents` attempts each snapshot name in order,
but a failure starting one agent stops the loop — the exception propagates
out of `start_all_agents` and the remaining names of the snapshot are not
attempted. -/
theorem start_all_agents_stops_at_first_failure
    (pre post : List String) (n e : String) (outcome : String → PyResult Unit)
    (hpre : ∀ m ∈ pre, outcome m = .ok ())
    (hn : outcome n = .exn e) :
    AgentRegistry.start_all_agents (pre ++ n :: post) outcome
      = (pre ++ [n], Option.some e) := by
  induction pre with
  | nil => simp [AgentRegistry.start_all_agents, hn]
  | cons m rest ih =>
    have hm : outcome m = .ok () := hpre m (List.mem_cons_self m rest)
    have ih' := ih (fun x hx => hpre x (List.mem_cons_of_mem m hx))
    simp [AgentRegistry.start_all_agents, hm, ih']

/-- Witness for the amended C4 at a concrete snapshot: `contact_agent`
starts, `gemini_core` raises, `calendar_agent` is never attempted. -/
theorem start_all_agents_stops_at_first_failure_witness :
    AgentRegistry.start_all_agents
        ["contact_agent", "gemini_core", "calendar_agent"]
        AgentRegistry.gemini_start_failure
      = (["contact_agent", "gemini_core"],
         Option.some "Failed to initialize Gemini model") :=
  start_all_agents_stops_at_first_failure ["contact_agent"] ["calendar_agent"]
    "gemini_core" "Failed to initialize Gemini model"
    AgentRegistry.gemini_start_failure
    (by intro m hm; simp only [List.mem_singleton] at hm; subst hm; rfl) rfl

namespace GeminiCore

/-- Python `identifier.lower()` followed by keeping only the alphanumeric
characters, as done for the scoped context key in
`GeminiCore._execute_task_plan` (gemini_core.py lines 276-278). -/
def cleaned_identifier (s : String) : String :=
  String.mk ((s.data.map Char.toLower).filter Char.isAlphanum)

/-- Scoped-key branch of the context update in `GeminiCore._execute_task_plan`
(gemini_core.py lines 270-288): only a `contact_agent.find_contact` step
whose result key is `email` writes a scoped `<cleaned identifier>_email`
entry.  An `identifier` parameter that is not a string makes `.lower()`
raise `AttributeError`, which the surrounding `except` logs without
writing; a missing identifier defaults to the empty string, and an empty
cleaned identifier is only logged. -/
def scoped_context_update (agent_name action : String)
    (resolved_parameters : List (String × PValue)) (result_key : String)
    (result_value : PValue) (context : List (String × PValue)) :
    List (String × PValue) :=
  if agent_name = "contact_agent" ∧ action = "find_contact"
      ∧ result_key = "email" then
    match dictGet "identifier" resolved_parameters with
    | Option.some (.str s) =>
        let ci := cleaned_identifier s
        if ci.data.isEmpty then context
        else dictInsert context (ci ++ "_email") result_value
    | Option.some _ => context
    | Option.none => context
  else context

/-- Context update for one successful plan step in
`GeminiCore._execute_task_plan` (gemini_core.py lines 263-296): extract the
result key and proceed only when it is truthy (gemini_core.py line 267 —
in Python both `None` and the empty string are falsy, so an empty result
key writes nothing); then perform the scoped write, and write the generic
`<agent>.<key>` entry only when that generic key itself is not already
present in the context. -/
def step_context_update (agent_name action : String)
    (resolved_parameters data context : List (String × PValue)) :
    List (String × PValue) :=
  match extract_result_key data with
  | Option.none => context
  | Option.some result_key =>
      if result_key.data.isEmpty then context
      else
        match dictGet result_key data with
        | Option.none => context
        | Option.some result_value =>
            let context1 := scoped_context_update agent_name action
                resolved_parameters result_key result_value context
            let context_key := agent_name ++ "." ++ result_key
            if (dictGet context_key context1).isSome then context1
            else dictInsert context1 context_key result_value

end GeminiCore

/-- Counterexample to C5: first, a successful `contact_agent.find_contact`
step whose scoped key `sehal_email` is already claimed in the context still
writes the generic `contact_agent.email` key (the guard consults the
generic key, not the scoped one); second, a successful `calendar_agent`
step publishes its result under one key only — no scoped key exists for it
— not under two keys. -/
theorem step_context_update_counterexample :
    dictGet "contact_agent.email"
        (GeminiCore.step_context_update "contact_agent" "find_contact"
          [("identifier", PValue.str "Sehal")]
          [("email", PValue.str "sehal@example.com")]
          [("sehal_email", PValue.str "old@example.com")])
      = Option.some (PValue.str "sehal@example.com")
    ∧ GeminiCore.step_context_update "calendar_agent" "schedule_meeting" []
        [("event_id", PValue.str "evt1")] []
      = [("calendar_agent.event_id", PValue.str "evt1")] :=
  ⟨rfl, rfl⟩

/-- C5 amended: for a successful step with payload data and a truthy
(non-empty) extracted result key, only a `contact_agent.find_contact` step
whose result key is `email` can write a scoped key; every other step
writes no scoped key, and the generic `<agent>.<key>` entry is written
exactly when that generic key itself is not already present in the context
— the guard consults the generic key, not the scoped key.  A falsy result
key writes nothing at all. -/
theorem step_context_update_generic_key_guard
    (agent_name action : String)
    (resolved_parameters data context : List (String × PValue))
    (result_key : String) (result_value : PValue)
    (hrk : GeminiCore.extract_result_key data = Option.some result_key)
    (hne : result_key.data.isEmpty = false)
    (hv : dictGet result_key data = Option.some result_value)
    (hnc : ¬(agent_name = "contact_agent" ∧ action = "find_contact"
              ∧ result_key = "email")) :
    GeminiCore.step_context_update agent_name action resolved_parameters
        data context
      = (if (dictGet (agent_name ++ "." ++ result_key) context).isSome then
          context
         else dictInsert context (agent_name ++ "." ++ result_key)
          result_value) := by
  simp only [GeminiCore.step_context_update, hrk, hne, hv]
  simp [GeminiCore.scoped_context_update, hnc]

/-- Witness for the amended C5 at a concrete calendar step on an empty
context: exactly the generic key is written. -/
theorem step_context_update_generic_key_guard_witness :
    GeminiCore.step_context_update "calendar_agent" "check_availability" []
        [("meeting_id", PValue.str "m7")] []
      = (if (dictGet ("calendar_agent" ++ "." ++ "meeting_id")
              ([] : List (String × PValue))).isSome then
          ([] : List (String × PValue))
         else dictInsert [] ("calendar_agent" ++ "." ++ "meeting_id")
          (PValue.str "m7")) :=
  step_context_update_generic_key_guard "calendar_agent" "check_availability"
    [] [("meeting_id", PValue.str "m7")] [] "meeting_id" (PValue.str "m7")
    rfl rfl rfl (by decide)

namespace GeminiCore

/-- Embedding of the `except` branch of `GeminiCore.process_user_request`
(gemini_core.py lines 74-78): build the generic error message from the
description of the caught exception, then evaluate the argument of
`self.history.append(...)` — in the source that argument is written with
doubled braces, a Python set literal containing a dict, so its evaluation
raises `TypeError` before the append and before the `return response`
line can run. -/
def process_user_request_except (history : List PValue) (e : String) :
    PyResult (List PValue × String) :=
  let response := "An unexpected error occurred: " ++ e
  match pySetLiteral [PValue.dict [("role", PValue.str "model"),
                                   ("parts", PValue.str response)]] with
  | .ok s => .ok (history ++ [s], response)
  | .exn t => .exn t

/-- Embedding of the parse tail of `GeminiCore._generate_task_plan`
(gemini_core.py lines 210-226).  The fence cleanup plus `json.loads` call
on the planner text is abstracted into the external `parse` function
(the stdlib JSON parser is not repository code); on a parse failure the
`except` branch executes `return` applied to a doubled-brace literal — a
Python set containing the empty dict — whose evaluation raises
`TypeError`. -/
def generate_task_plan_parse (parse : String → Option PValue)
    (response_text : String) : PyResult PValue :=
  match parse response_text with
  | Option.some plan => .ok plan
  | Option.none =>
      match pySetLiteral [PValue.dict []] with
      | .ok s => .ok s
      | .exn t => .exn t

end GeminiCore

/-- C1 fails on the code: the `except` branch of `process_user_request`
never returns — evaluating the set literal wrapped around the transcript
entry raises `TypeError` (a dict is unhashable), so an unhandled
processing exception propagates to the caller, no generic error reply is
returned, and no closing assistant turn is appended to the transcript. -/
theorem process_user_request_except_raises (history : List PValue) (e : String) :
    GeminiCore.process_user_request_except history e
      = .exn "TypeError: unhashable type" := by
  simp [GeminiCore.process_user_request_except, pySetLiteral, isUnhashable]

/-- C2 fails on the code: when the planner output is unparsable, the
`except` branch of `_generate_task_plan` does not return an empty plan —
its `return` of a doubled-brace literal raises `TypeError` — and the
top-level `except` of `process_user_request` then raises in the same way,
so no user-visible failure message is returned either (although indeed no
plan step is executed and no agent message is sent). -/
theorem generate_task_plan_parse_failure_raises
    (parse : String → Option PValue) (response_text : String)
    (history : List PValue)
    (h : parse response_text = Option.none) :
    GeminiCore.generate_task_plan_parse parse response_text
        = .exn "TypeError: unhashable type"
    ∧ GeminiCore.process_user_request_except history
        "TypeError: unhashable type"
        = .exn "TypeError: unhashable type" := by
  constructor
  · simp [GeminiCore.generate_task_plan_parse, h, pySetLiteral, isUnhashable]
  · simp [GeminiCore.process_user_request_except, pySetLiteral, isUnhashable]

/-- Witness for the C2 divergence theorem at a concrete unparsable planner
reply: the failure path raises instead of returning an empty plan. -/
theorem generate_task_plan_parse_failure_raises_witness :
    GeminiCore.generate_task_plan_parse (fun _ => Option.none)
        "Sorry, here is some prose instead of JSON"
      = .exn "TypeError: unhashable type" :=
  (generate_task_plan_parse_failure_raises (fun _ => Option.none)
    "Sorry, here is some prose instead of JSON" [] rfl).1
